import Mathlib

/-!
Verification development for the `nbafirst` scraping pipeline
(`src/nbafirst/scraper/nba_scraper.py`).

The Python source is shallowly embedded: dictionaries become association
lists with Python's insertion-order/overwrite semantics, floats become
rationals, fallible lookups become `Option`, and the side-effecting fetch
helpers are modelled as pure functions that also return the trace of
network events they would emit.  Python's `round` (round half to even)
is modelled exactly on rationals.
-/

/-! ### Structural string primitives

Lean's built-in `String.splitOn`, `trim`, `toUpper`, `toNat?`, ... are
implemented with position loops that the kernel cannot evaluate, so the
Python string operations are modelled structurally on the character
list of the string (`String.data`); each definition states which Python
operation it models. -/

/-- Python `len(s)`. -/
def pyLength (s : String) : ℕ := s.data.length

/-- Python `s.startswith(pre)`. -/
def pyStartsWith (s pre : String) : Bool := pre.data.isPrefixOf s.data

/-- Python `s[n:]`. -/
def pyDrop (s : String) (n : ℕ) : String := String.mk (s.data.drop n)

/-- Python `s[:n]`. -/
def pyTake (s : String) (n : ℕ) : String := String.mk (s.data.take n)

/-- Python `s.strip()` (whitespace from both ends). -/
def pyTrim (s : String) : String :=
  String.mk (((s.data.dropWhile Char.isWhitespace).reverse.dropWhile
    Char.isWhitespace).reverse)

/-- Python `s.upper()` (over the ASCII range used by the data). -/
def pyUpper (s : String) : String := String.mk (s.data.map Char.toUpper)

/-- Python `s.lower()` (over the ASCII range used by the data). -/
def pyLower (s : String) : String := String.mk (s.data.map Char.toLower)

/-- Splitting worker: each recursion step consumes fuel, so the
definition is structural and kernel-evaluable.  At a position where the
(non-empty) separator is a prefix, the accumulated chunk is emitted and
the separator skipped. -/
def pySplitGo (sep : List Char) : ℕ → List Char → List Char → List (List Char)
  | 0, rest, acc => [acc.reverse ++ rest]
  | _ + 1, [], acc => [acc.reverse]
  | fuel + 1, c :: rest, acc =>
    if sep.isPrefixOf (c :: rest) then
      acc.reverse :: pySplitGo sep fuel (rest.drop (sep.length - 1)) []
    else pySplitGo sep fuel rest (c :: acc)

/-- Python `hay.split(sep)` for a non-empty separator (the pipeline
never splits on an empty separator). -/
def pySplit (hay sep : String) : List String :=
  if sep.data = [] then [hay]
  else (pySplitGo sep.data (hay.data.length + 1) hay.data []).map
    (fun l => String.mk l)

/-! ### Python-semantics helpers -/

/-- Python truthiness of an optional string: `None` and `""` are falsy. -/
def pyTruthyO : Option String → Bool
  | none => false
  | some s => s ≠ ""

/-- Python `x or y` on optional strings (`x` is returned iff truthy). -/
def pyOrS (x y : Option String) : Option String :=
  if pyTruthyO x then x else y

/-- Python `needle in hay` substring test.  A non-empty needle occurs in
`hay` iff splitting on it produces at least two parts. -/
def pyIn (needle hay : String) : Bool :=
  if needle = "" then true else (pySplit hay needle).length > 1

/-- Python `str(...)` rendering of an optional string (as used inside
f-strings, where `None` prints as `"None"`). -/
def pyStrO : Option String → String
  | none => "None"
  | some s => s

/-! ### Python `round` (round half to even) on rationals -/

/-- Round a rational to the nearest integer, ties to the even integer
(Python's `round` rule). -/
def rhe (q : ℚ) : ℤ :=
  if q - ⌊q⌋ < 1/2 then ⌊q⌋
  else if 1/2 < q - ⌊q⌋ then ⌊q⌋ + 1
  else if ⌊q⌋ % 2 = 0 then ⌊q⌋ else ⌊q⌋ + 1

/-- Python `round(q, n)` for a rational `q` and `n` decimal digits. -/
def pyRound (n : ℕ) (q : ℚ) : ℚ :=
  (rhe (q * 10 ^ n) : ℚ) / 10 ^ n

/-! ### Team-code mapper (`TEAM_TO_BREF`, `_extract_bref_team_code`)

The Python class attribute `TEAM_TO_BREF` is a dict literal; we keep the
entries as an association list in source order.  `dictInsert` replicates
Python dict assignment (overwrite if the key is present, else append),
so `reverseMap` is the dict comprehension
`{v: k for k, v in TEAM_TO_BREF.items()}` with its later-entry-wins
semantics. -/

def TEAM_TO_BREF : List (String × String) :=
  [("ATL", "ATL"), ("BOS", "BOS"), ("BKN", "BRK"), ("BRK", "BRK"),
   ("CHA", "CHO"), ("CHO", "CHO"), ("CHI", "CHI"), ("CLE", "CLE"),
   ("DAL", "DAL"), ("DEN", "DEN"), ("DET", "DET"), ("GSW", "GSW"),
   ("HOU", "HOU"), ("IND", "IND"), ("LAC", "LAC"), ("LAL", "LAL"),
   ("MEM", "MEM"), ("MIA", "MIA"), ("MIL", "MIL"), ("MIN", "MIN"),
   ("NOP", "NOP"), ("NOH", "NOP"), ("NYK", "NYK"), ("OKC", "OKC"),
   ("ORL", "ORL"), ("PHI", "PHI"), ("PHX", "PHO"), ("PHO", "PHO"),
   ("POR", "POR"), ("SAC", "SAC"), ("SAS", "SAS"), ("TOR", "TOR"),
   ("UTA", "UTA"), ("WAS", "WAS")]

/-- Lookup in a Python dict represented as an association list whose keys
are unique (first match). -/
def dictGet (d : List (String × String)) (k : String) : Option String :=
  (d.find? (fun p => p.1 = k)).map (fun p => p.2)

/-- Python dict assignment `d[k] = v`: overwrite in place, else append. -/
def dictInsert (d : List (String × String)) (k v : String) :
    List (String × String) :=
  if d.any (fun p => p.1 = k) then
    d.map (fun p => if p.1 = k then (k, v) else p)
  else d ++ [(k, v)]

/-- `reverse_map = {v: k for k, v in self.TEAM_TO_BREF.items()}`
(from `_extract_bref_team_code`). -/
def reverseMap : List (String × String) :=
  TEAM_TO_BREF.foldl (fun acc p => dictInsert acc p.2 p.1) []

/-- `toAlternateScheme`: `self.TEAM_TO_BREF.get(code)` (used in
`_build_bref_game_url`). -/
def toAlternateScheme (code : String) : Option String :=
  dictGet TEAM_TO_BREF code

/-- `fromAlternateScheme`: `reverse_map.get(code, code)` — the reverse
translation with identity fallback used in `_extract_bref_team_code`. -/
def fromAlternateScheme (code : String) : String :=
  (dictGet reverseMap code).getD code

/-- The round trip of the claim: map a known code into the HTML scheme
and back (on a key of the table, `getD` never fires). -/
def roundTripTeamCode (code : String) : String :=
  fromAlternateScheme ((toAlternateScheme code).getD code)

/-- The four official codes that share their HTML-scheme code with a
later-listed alias in `TEAM_TO_BREF` (the alias wins in `reverseMap`). -/
def shadowedTeamCodes : List String := ["BKN", "CHA", "NOP", "PHX"]

/-! ### Elapsed-time normalizer (`_calculate_elapsed_seconds`)

`clock` is a countdown string `"MM:SS"`.  The Python code does
`minutes_str, seconds_str = clock.split(":")` (exactly two parts or a
`ValueError`), `int(minutes_str)`, `float(seconds_str)`; on any failure
it falls back to `minutes = 12, seconds = 0.0`.  `int`/`float` strip
surrounding whitespace and accept an optional sign; we model the plain
decimal forms they accept (scientific notation and the like never occur
in clock strings and are abstracted away). -/

/-- Parse a run of digits as a natural number (`none` if empty or
non-digit). -/
def digitsToNat (l : List Char) : ℕ :=
  l.foldl (fun acc c => 10 * acc + (c.toNat - ('0').toNat)) 0

/-- Parse a run of digits as a natural number (`none` if empty or
non-digit). -/
def parseDigits (s : String) : Option ℕ :=
  if s.data ≠ [] ∧ s.data.all Char.isDigit then some (digitsToNat s.data)
  else none

/-- Python `int(s)` on the decimal strings that occur here. -/
def pyInt (s : String) : Option ℤ :=
  let t := pyTrim s
  if pyStartsWith t "-" then (parseDigits (pyDrop t 1)).map (fun n => -(n : ℤ))
  else if pyStartsWith t "+" then (parseDigits (pyDrop t 1)).map (fun n => (n : ℤ))
  else (parseDigits t).map (fun n => (n : ℤ))

/-- Python `float(s)` restricted to plain (optionally signed) decimal
notation, as a rational. -/
def pyFloat (s : String) : Option ℚ :=
  let t := pyTrim s
  let sign : ℚ := if pyStartsWith t "-" then -1 else 1
  let u := if pyStartsWith t "-" || pyStartsWith t "+" then pyDrop t 1 else t
  match pySplit u "." with
  | [a] => (parseDigits a).map (fun n => sign * n)
  | [a, b] =>
    if a = "" && b = "" then none
    else if a = "" then
      (parseDigits b).map (fun f => sign * f / 10 ^ pyLength b)
    else if b = "" then (parseDigits a).map (fun n => sign * n)
    else match parseDigits a, parseDigits b with
      | some n, some f => some (sign * (n + (f : ℚ) / 10 ^ pyLength b))
      | _, _ => none
  | _ => none

/-- `minutes_str, seconds_str = clock.split(":")` followed by
`int(minutes_str)` and `float(seconds_str)`; `none` models the
`ValueError`/`AttributeError` path. -/
def parseClock (clock : String) : Option (ℤ × ℚ) :=
  match pySplit clock ":" with
  | [minutes_str, seconds_str] =>
    match pyInt minutes_str, pyFloat seconds_str with
    | some m, some s => some (m, s)
    | _, _ => none
  | _ => none

/-- The `(minutes, seconds)` actually used: the parse result, or the
`except` fallback `(12, 0.0)`. -/
def clockMinSec (clock : String) : ℤ × ℚ :=
  (parseClock clock).getD (12, 0)

/-- The countdown value `minutes * 60 + seconds` the function subtracts. -/
def clockSecondsUsed (clock : String) : ℚ :=
  (clockMinSec clock).1 * 60 + (clockMinSec clock).2

/-- `period_length = 12 * 60`, or `5 * 60` when
`period > 4 or period_type.upper() == "OVERTIME"`. -/
def periodLengthFor (period : ℤ) (period_type : String) : ℚ :=
  if period > 4 ∨ pyUpper period_type = "OVERTIME" then 5 * 60 else 12 * 60

/-- The value before rounding:
`period_length - (minutes * 60 + seconds) + max(0, period - 1) * 12 * 60`. -/
def elapsedSecondsExact (clock : String) (period : ℤ) (period_type : String) : ℚ :=
  periodLengthFor period period_type - clockSecondsUsed clock
    + (max 0 (period - 1) : ℤ) * (12 * 60)

/-- `_calculate_elapsed_seconds(clock, period, period_type)`:
`round(total_elapsed, 2)`. -/
def calculateElapsedSeconds (clock : String) (period : ℤ)
    (period_type : String) : ℚ :=
  pyRound 2 (elapsedSecondsExact clock period period_type)

/-! ### Season schedule resolver (`_fetch_schedule`, `scrape_season_data`)

The fetch layer is modelled as an oracle from the requested URL to
either a transport error (`Except.error`) or a parsed payload.  Each
resolver returns its result together with the list of URLs it actually
requested, so that "which sources were consulted" is part of the
observable behaviour. -/

/-- `SCHEDULE_URL.format(season=season_start)`. -/
def SCHEDULE_URL_for (season_start : ℤ) : String :=
  "https://data.nba.com/data/10s/prod/v1/" ++ toString season_start
    ++ "/schedule.json"

/-- A schedule game dict: only the keys the pipeline reads. -/
structure ScheduleGame where
  gameId : Option String := none
  startDateEastern : Option String := none
  statusNum : Option ℤ := none
  hTeamTriCode : Option String := none
  vTeamTriCode : Option String := none
deriving DecidableEq, Repr

/-- The schedule payload: `payload.get("league", {}).get("standard", [])`;
`none` covers both a missing key and the `isinstance(games, list)`
failure, which the code turns into `[]`. -/
structure SchedulePayload where
  leagueStandard : Option (List ScheduleGame) := none
deriving Repr

/-- `_fetch_schedule(season_start)` together with the URLs it requests:
it builds the primary official URL, fetches it once, and returns
`league.standard` (or `[]`); a transport error propagates to the caller.
No other URL is ever requested. -/
def fetchSchedule (oracle : String → Except Unit SchedulePayload)
    (season_start : ℤ) : Except Unit (List ScheduleGame) × List String :=
  let url := SCHEDULE_URL_for season_start
  match oracle url with
  | Except.error e => (Except.error e, [url])
  | Except.ok payload => (Except.ok (payload.leagueStandard.getD []), [url])

/-- The per-season branch of `scrape_season_data`: a schedule error is
caught (`except requests.RequestException: continue`) and the season is
skipped (`none`); otherwise the games list is processed. -/
def scrapeSeasonSchedule (oracle : String → Except Unit SchedulePayload)
    (season_start : ℤ) : Option (List ScheduleGame) :=
  match (fetchSchedule oracle season_start).1 with
  | Except.error _ => none
  | Except.ok games => some games

/-! ### Outbound request traces (`_fetch_json`, `_respect_rate_limit`,
`_check_robots_once`, `_fetch_first_event_from_bref`,
`_get_todays_games_from_bref`)

Each fetching helper is modelled by the sequence of network-layer events
it emits: a `rateLimitWait` for a call to `_respect_rate_limit`, and an
`httpGet url` for `self.session.get(url, ...)`. -/

inductive NetEvent where
  | rateLimitWait : NetEvent
  | httpGet : String → NetEvent
deriving DecidableEq, Repr

def ROBOTS_URL : String := "https://www.nba.com/robots.txt"

def BREF_BOX_SCORES_URL : String :=
  "https://www.basketball-reference.com/boxscores/"

/-- `PBP_URL.format(game_id=game_id)`. -/
def PBP_URL_for (game_id : String) : String :=
  "https://cdn.nba.com/static/json/liveData/playbyplay/playbyplay_"
    ++ game_id ++ ".json"

/-- `BREF_PBP_URL.format(game_id=game_id)`. -/
def BREF_PBP_URL_for (game_id : String) : String :=
  "https://www.basketball-reference.com/boxscores/pbp/" ++ game_id ++ ".html"

/-- `_fetch_json(url)` calls `self._respect_rate_limit()` and then
`self.session.get(url, timeout=20)`. -/
def fetchJsonEvents (url : String) : List NetEvent :=
  [NetEvent.rateLimitWait, NetEvent.httpGet url]

/-- `_check_robots_once` calls `self.session.get(self.ROBOTS_URL,
timeout=15)` directly, without `_respect_rate_limit`. -/
def checkRobotsEvents : List NetEvent :=
  [NetEvent.httpGet ROBOTS_URL]

/-- The HTML play-by-play fetch inside `_fetch_first_event_from_bref`:
`self.session.get(url, timeout=20)` directly, without
`_respect_rate_limit`. -/
def brefPbpFetchEvents (url : String) : List NetEvent :=
  [NetEvent.httpGet url]

/-- The fetch inside `_get_todays_games_from_bref`:
`self.session.get(self.BREF_BOX_SCORES_URL, params=params, timeout=20)`
directly, without `_respect_rate_limit`. -/
def brefBoxScoresFetchEvents : List NetEvent :=
  [NetEvent.httpGet BREF_BOX_SCORES_URL]

/-- `_respect_rate_limit`: the duration of the `time.sleep` call given
the current time, the shared `_last_request_timestamp` and
`min_request_interval` (`if elapsed < interval: sleep(interval - elapsed)`). -/
def respectRateLimitSleep (now last interval : ℚ) : ℚ :=
  if now - last < interval then interval - (now - last) else 0

/-! ### Game records and the idempotent store
(`_build_game_record`, `_upsert_game_record`, `_game_already_processed`)

The `games` table is modelled as a list of rows; `game_id` is the
primary key.  `first_scoring_elapsed` is always a number here because
the pipeline always computes it before writing. -/

structure GameRecord where
  game_id : String
  season : String
  game_date : String
  home_team : Option String
  away_team : Option String
  first_scoring_team : Option String
  first_scoring_player : Option String
  first_scoring_player_id : Option String
  first_scoring_description : Option String
  first_scoring_elapsed : ℚ
  source_url : String
  last_updated : String
deriving DecidableEq, Repr

/-- `INSERT ... ON CONFLICT(game_id) DO UPDATE SET <every field>`:
if a row with the key exists it is replaced wholesale, otherwise the
new row is appended. -/
def upsertGameRecord (store : List GameRecord) (r : GameRecord) :
    List GameRecord :=
  if store.any (fun x => x.game_id = r.game_id) then
    store.map (fun x => if x.game_id = r.game_id then r else x)
  else store ++ [r]

/-- `_game_already_processed`: `SELECT game_id FROM games WHERE
game_id = ?` returned a row. -/
def gameAlreadyProcessed (store : List GameRecord) (game_id : String) : Bool :=
  store.any (fun x => x.game_id = game_id)

/-- The store invariant maintained by the `game_id` primary key. -/
def storeWF (store : List GameRecord) : Prop :=
  (store.map (fun x => x.game_id)).Nodup

/-! ### Canonical scoring events and the source-specific extractors
(`_extract_first_scoring_event`, `_fetch_first_event_from_bref`,
`_guess_player_from_description` and friends) -/

/-- The canonical event shape every source mapper produces. -/
structure ScoringEvent where
  team : String
  player : String
  player_id : Option String
  description : Option String
  clock : String
  period : ℤ
  periodType : String
deriving DecidableEq, Repr

/-- One entry of `game["actions"]` in the official play-by-play payloads,
restricted to the keys the extractor reads.  `scoreValue` is the value
after `int(action.get("scoreValue", 0))` with its `except` fallback to
`0`; `period` is `none` when the key is absent (the code defaults it
to `1`). -/
structure PbpAction where
  scoreValue : ℤ := 0
  teamTricode : Option String := none
  playerName : Option String := none
  playerNameI : Option String := none
  personId : Option String := none
  description : Option String := none
  actionType : Option String := none
  clock : Option String := none
  period : Option ℤ := none
  periodType : Option String := none
deriving DecidableEq, Repr

/-- `_extract_first_scoring_event` over the action list (a payload whose
`game`/`actions` shape is wrong yields no actions and hence `none`). -/
def extractFirstScoringEvent : List PbpAction → Option ScoringEvent
  | [] => none
  | action :: rest =>
    if action.scoreValue ≤ 0 then extractFirstScoringEvent rest
    else
      let team := action.teamTricode
      let player := pyOrS action.playerName action.playerNameI
      if !(pyTruthyO team) || !(pyTruthyO player) then
        extractFirstScoringEvent rest
      else
        some { team := team.getD ""
               player := player.getD ""
               player_id := if pyTruthyO action.personId then action.personId
                            else none
               description := pyOrS action.description action.actionType
               clock := action.clock.getD "12:00"
               period := action.period.getD 1
               periodType := action.periodType.getD "REGULAR" }

/-- The action markers of `_guess_player_from_description`. -/
def PLAYER_MARKERS : List String :=
  [" makes", " misses", " turnover", " assists", " enters"]

/-- `_guess_player_from_description(description)`: empty text yields
`None`; at the first marker contained in the text the description is
truncated (`description.split(marker, 1)[0].strip()`); with no marker
the whole description is returned. -/
def guessPlayerFromDescription (description : String) : Option String :=
  if description = "" then none
  else
    match PLAYER_MARKERS.find? (fun marker => pyIn marker description) with
    | some marker =>
      some (pyTrim ((pySplit description marker).headD description))
    | none => some description

/-- One `<tr>` of the Basketball Reference play-by-play table, as the
texts of the cells the parser reads (`none` = cell absent, `some ""` =
cell present with empty text). -/
structure BrefRow where
  score : Option String := none
  team_id : Option String := none
  team : Option String := none
  team_abbreviation : Option String := none
  description : Option String := none
  time : Option String := none
  time_remaining : Option String := none
  time_elapsed : Option String := none
  header : Option String := none
deriving DecidableEq, Repr

/-- The `for key in (...)` pattern `if cell and cell.get_text(strip=True)`:
first present cell with non-empty text. -/
def firstTruthyCell : List (Option String) → Option String
  | [] => none
  | c :: rest => if pyTruthyO c then c else firstTruthyCell rest

/-- `_extract_bref_team_from_row`: first non-empty of the three team
cells; kept only when exactly three characters, upper-cased. -/
def extractBrefTeamFromRow (row : BrefRow) : Option String :=
  match firstTruthyCell [row.team_id, row.team, row.team_abbreviation] with
  | some t => if pyLength t = 3 then some (pyUpper t) else none
  | none => none

/-- `_extract_bref_description`: the description cell's text, `""` when
the cell is absent. -/
def extractBrefDescription (row : BrefRow) : String :=
  row.description.getD ""

/-- `_parse_bref_period(period_text)`. -/
def parseBrefPeriod (period_text : String) : Option ℤ :=
  if period_text = "" then none
  else
    let lowered := pyLower period_text
    if pyIn "ot" lowered then some 5
    else if pyIn "1" lowered then some 1
    else if pyIn "2" lowered then some 2
    else if pyIn "3" lowered then some 3
    else if pyIn "4" lowered then some 4
    else none

/-- `_extract_bref_time_period`. -/
def extractBrefTimePeriod (row : BrefRow) : Option String × Option ℤ :=
  (firstTruthyCell [row.time, row.time_remaining, row.time_elapsed],
   row.header.bind parseBrefPeriod)

/-- Python `x or d` for an optional integer (`None` and `0` are falsy). -/
def pyOrZ (x : Option ℤ) (d : ℤ) : ℤ :=
  match x with
  | some n => if n = 0 then d else n
  | none => d

/-- The row loop of `_fetch_first_event_from_bref` over the parsed
`tbody` rows (the earlier layers — BeautifulSoup availability, URL
construction, the HTTP fetch, locating `table#pbp`/`tbody` — are the
`Option` around the row list at the call site). -/
def fetchFirstEventFromBref : List BrefRow → Option ScoringEvent
  | [] => none
  | row :: rest =>
    match row.score with
    | none => fetchFirstEventFromBref rest
    | some score_text =>
      if score_text = "" || score_text = "0-0" then
        fetchFirstEventFromBref rest
      else
        let team := extractBrefTeamFromRow row
        let description := extractBrefDescription row
        let clock := (extractBrefTimePeriod row).1
        let period := (extractBrefTimePeriod row).2
        let player := guessPlayerFromDescription description
        if !(pyTruthyO team) || description = "" then
          fetchFirstEventFromBref rest
        else
          some { team := team.getD ""
                 player := (pyOrS player (some description)).getD ""
                 player_id := none
                 description := some description
                 clock := (pyOrS clock (some "12:00")).getD ""
                 period := pyOrZ period 1
                 periodType := "REGULAR" }

/-! ### The per-game pipeline (`_process_game`, `_build_game_record`) -/

/-- The three scoring-event sources, in the order `_process_game` tries
them. -/
inductive SourceTag where
  | officialPbp : SourceTag
  | liveApi : SourceTag
  | brefHtml : SourceTag
deriving DecidableEq, Repr

/-- What each source would deliver for one game.  `pbpActions = none`
models a failed or falsy primary play-by-play fetch (or a payload of
the wrong shape), `apiActions = none` a missing `nba_api` or an
exception in it, `brefRows = none` a missing BeautifulSoup, an
unresolvable URL, a failed fetch or a missing `table#pbp`/`tbody`. -/
structure Sources where
  pbpActions : Option (List PbpAction) := none
  apiActions : Option (List PbpAction) := none
  brefRows : Option (List BrefRow) := none

/-- The source-fallback chain of `_process_game`: the primary official
play-by-play, then the `nba_api` live replay, then the Basketball
Reference HTML page; each stage runs only when every earlier stage
produced no event.  Returns the event (if any) and the list of sources
that were invoked. -/
def processGameCore (srcs : Sources) : Option ScoringEvent × List SourceTag :=
  match srcs.pbpActions.bind extractFirstScoringEvent with
  | some ev => (some ev, [SourceTag.officialPbp])
  | none =>
    match srcs.apiActions.bind extractFirstScoringEvent with
    | some ev => (some ev, [SourceTag.officialPbp, SourceTag.liveApi])
    | none =>
      (srcs.brefRows.bind fetchFirstEventFromBref,
       [SourceTag.officialPbp, SourceTag.liveApi, SourceTag.brefHtml])

/-- `datetime.strptime(start_date, "%Y%m%d").date().isoformat()`:
eight digits with a plausible month and day (exact per-month day upper
bounds are abstracted), rendered as `YYYY-MM-DD`. -/
def parseDateYYYYMMDD (s : String) : Option String :=
  if pyLength s = 8 ∧ s.data.all Char.isDigit then
    let y := pyTake s 4
    let m := pyTake (pyDrop s 4) 2
    let d := pyDrop s 6
    match parseDigits m, parseDigits d with
    | some mm, some dd =>
      if 1 ≤ mm ∧ mm ≤ 12 ∧ 1 ≤ dd ∧ dd ≤ 31 then
        some (y ++ "-" ++ m ++ "-" ++ d)
      else none
    | _, _ => none
  else none

/-- `_build_game_record(game, season_label, first_event, source_url)`.
`gid` is the `gameId` that `_process_game` has already checked to be
truthy; `todayIso` and `nowIso` stand for `datetime.now().date()` and
`datetime.now(timezone.utc)`. -/
def buildGameRecord (gid : String) (game : ScheduleGame)
    (season_label : String) (first_event : ScoringEvent)
    (source_url todayIso nowIso : String) : GameRecord :=
  { game_id := gid
    season := season_label
    game_date := (parseDateYYYYMMDD (game.startDateEastern.getD "")).getD todayIso
    home_team := game.hTeamTriCode
    away_team := game.vTeamTriCode
    first_scoring_team := some first_event.team
    first_scoring_player := some first_event.player
    first_scoring_player_id := first_event.player_id
    first_scoring_description := first_event.description
    first_scoring_elapsed := calculateElapsedSeconds first_event.clock
      first_event.period first_event.periodType
    source_url := source_url
    last_updated := nowIso }

/-- `_process_game(game, season_label)`: the record it upserts (`none`
when nothing is written — missing/falsy `gameId`, already-processed
game, or no source yielded an event) together with the sources it
invoked. -/
def processGame (srcs : Sources) (game : ScheduleGame)
    (season_label : String) (store : List GameRecord)
    (todayIso nowIso : String) : Option GameRecord × List SourceTag :=
  match game.gameId with
  | none => (none, [])
  | some gid =>
    if gid = "" then (none, [])
    else if gameAlreadyProcessed store gid then (none, [])
    else
      match processGameCore srcs with
      | (none, tags) => (none, tags)
      | (some ev, tags) =>
        (some (buildGameRecord gid game season_label ev (PBP_URL_for gid)
          todayIso nowIso), tags)

/-! ### Season aggregation (`_build_player_summary`)

The two SQL queries are computed over the modelled row list: the group
keys are `(first_scoring_player, first_scoring_player_id,
first_scoring_team)` over the season's rows with a non-null
`first_scoring_team`, and `games_played` counts a team's home and away
appearances among that season's rows (`UNION ALL` then `GROUP BY`).
The `ORDER BY` of the SQL output is not modelled. -/

structure PlayerSummary where
  player_id : String
  name : Option String
  team : String
  position : Option String
  avg_first_basket_time : ℚ
  first_basket_probability : ℚ
  games_played : ℕ
  first_baskets : ℕ
deriving DecidableEq, Repr

/-- `WHERE season = ?` — the season's rows. -/
def seasonRowsOf (rows : List GameRecord) (season_label : String) :
    List GameRecord :=
  rows.filter (fun r => r.season = season_label)

/-- `WHERE season = ? AND first_scoring_team IS NOT NULL`. -/
def scoredRowsOf (rows : List GameRecord) (season_label : String) :
    List GameRecord :=
  (seasonRowsOf rows season_label).filter
    (fun r => r.first_scoring_team.isSome)

/-- The `games_played` of a team: its home appearances plus its away
appearances among the season's rows (`UNION ALL` then `COUNT`). -/
def teamGamesPlayed (rows : List GameRecord) (season_label : String)
    (t : String) : ℕ :=
  (seasonRowsOf rows season_label).countP (fun r => r.home_team = some t)
    + (seasonRowsOf rows season_label).countP (fun r => r.away_team = some t)

/-- The `GROUP BY` key `(player, player_id, team)`. -/
def summaryKey (r : GameRecord) :
    Option String × Option String × Option String :=
  (r.first_scoring_player, r.first_scoring_player_id, r.first_scoring_team)

/-- The rows of one group. -/
def groupRowsOf (rows : List GameRecord) (season_label : String)
    (k : Option String × Option String × Option String) :
    List GameRecord :=
  (scoredRowsOf rows season_label).filter (fun r =>
    r.first_scoring_player = k.1 ∧ r.first_scoring_player_id = k.2.1 ∧
    r.first_scoring_team = k.2.2)

/-- The exported entry of one group: skipped when the team has no games
(`if games_played == 0: continue`), otherwise
`probability = first_baskets / games_played` rounded to 4 digits and the
average elapsed time rounded to 2 (`round(row["avg_elapsed"] or 0, 2)`).
A `none` group team cannot occur (the rows are filtered on
`IS NOT NULL`) and yields no entry. -/
def summaryForKey (rows : List GameRecord) (season_label : String)
    (k : Option String × Option String × Option String) :
    Option PlayerSummary :=
  match k.2.2 with
  | none => none
  | some t =>
    let group := groupRowsOf rows season_label k
    let first_baskets := group.length
    let games_played := teamGamesPlayed rows season_label t
    if games_played = 0 then none
    else
      let probability : ℚ := (first_baskets : ℚ) / (games_played : ℚ)
      let avg_elapsed : ℚ :=
        if group.length = 0 then 0
        else (group.map (fun r => r.first_scoring_elapsed)).sum / group.length
      some { player_id := if pyTruthyO k.2.1 then k.2.1.getD ""
                          else t ++ "_" ++ pyStrO k.1
             name := k.1
             team := t
             position := none
             avg_first_basket_time := pyRound 2 avg_elapsed
             first_basket_probability := pyRound 4 probability
             games_played := games_played
             first_baskets := first_baskets }

/-- `_build_player_summary(season_label)` over the modelled rows: one
entry per distinct group key (first-occurrence order; the SQL
`ORDER BY` is not modelled). -/
def buildPlayerSummary (rows : List GameRecord) (season_label : String) :
    List PlayerSummary :=
  ((scoredRowsOf rows season_label).map summaryKey).dedup.filterMap
    (summaryForKey rows season_label)

/-! ### Demonstration inputs used by witnesses and counterexamples -/

/-- Two stored games: team `AAA` appears once (home of the first game),
yet `first_scoring_team` names `AAA` in both rows — the store shape the
summary query cannot rule out. -/
def inconsistentRows : List GameRecord :=
  [{ game_id := "G1", season := "2023-24", game_date := "2023-10-24",
     home_team := some "AAA", away_team := some "BBB",
     first_scoring_team := some "AAA", first_scoring_player := some "P",
     first_scoring_player_id := none, first_scoring_description := none,
     first_scoring_elapsed := 10, source_url := "u1", last_updated := "t1" },
   { game_id := "G2", season := "2023-24", game_date := "2023-10-25",
     home_team := some "BBB", away_team := some "CCC",
     first_scoring_team := some "AAA", first_scoring_player := some "P",
     first_scoring_player_id := none, first_scoring_description := none,
     first_scoring_elapsed := 20, source_url := "u2", last_updated := "t2" }]

/-- Two stored games where team `AAA` appears once as home and once as
away, and player `P` scores first in exactly one of them (the spec's
aggregation example). -/
def twoGameRows : List GameRecord :=
  [{ game_id := "G1", season := "2023-24", game_date := "2023-10-24",
     home_team := some "AAA", away_team := some "BBB",
     first_scoring_team := some "AAA", first_scoring_player := some "P",
     first_scoring_player_id := some "101", first_scoring_description := none,
     first_scoring_elapsed := 30, source_url := "u1", last_updated := "t1" },
   { game_id := "G2", season := "2023-24", game_date := "2023-10-25",
     home_team := some "BBB", away_team := some "AAA",
     first_scoring_team := some "BBB", first_scoring_player := some "Q",
     first_scoring_player_id := some "202", first_scoring_description := none,
     first_scoring_elapsed := 40, source_url := "u2", last_updated := "t2" }]

/-- A first record for game id `0022300001`. -/
def demoRecordA : GameRecord :=
  { game_id := "0022300001", season := "2023-24", game_date := "2023-10-24",
    home_team := some "DEN", away_team := some "LAL",
    first_scoring_team := some "DEN", first_scoring_player := some "N. Jokic",
    first_scoring_player_id := some "203999",
    first_scoring_description := some "Jokic 2' layup",
    first_scoring_elapsed := 12, source_url := "u1", last_updated := "t1" }

/-- A second record for the same game id with every payload field
changed. -/
def demoRecordB : GameRecord :=
  { game_id := "0022300001", season := "2024-25", game_date := "2023-10-25",
    home_team := some "BOS", away_team := some "NYK",
    first_scoring_team := some "BOS", first_scoring_player := some "J. Tatum",
    first_scoring_player_id := some "1628369",
    first_scoring_description := some "Tatum 3-pt shot",
    first_scoring_elapsed := 31, source_url := "u2", last_updated := "t2" }

/-- A primary play-by-play action list whose second action is the first
score. -/
def demoActions : List PbpAction :=
  [{ scoreValue := 0, teamTricode := some "DEN",
     description := some "Jump ball" },
   { scoreValue := 2, teamTricode := some "DEN",
     playerName := some "N. Jokic", personId := some "203999",
     description := some "Jokic 2' layup", clock := some "11:28",
     period := some 1, periodType := some "REGULAR" }]

/-- Sources where the primary official play-by-play succeeds. -/
def demoSources : Sources :=
  { pbpActions := some demoActions
    apiActions := some []
    brefRows := some [] }

/-- A schedule entry for the demo game. -/
def demoGame : ScheduleGame :=
  { gameId := some "0022300001", startDateEastern := some "20231024",
    statusNum := some 3, hTeamTriCode := some "DEN",
    vTeamTriCode := some "LAL" }

/-- The canonical event extracted from `demoActions`. -/
def demoFirstEvent : ScoringEvent :=
  { team := "DEN", player := "N. Jokic", player_id := some "203999",
    description := some "Jokic 2' layup", clock := "11:28", period := 1,
    periodType := "REGULAR" }

/-! ## Helper lemmas: round half to even -/

theorem floor_le_rhe (q : ℚ) : ⌊q⌋ ≤ rhe q := by
  unfold rhe
  split_ifs <;> omega

theorem rhe_le_floor_add_one (q : ℚ) : rhe q ≤ ⌊q⌋ + 1 := by
  unfold rhe
  split_ifs <;> omega

theorem rhe_eq_floor {q : ℚ} (h : q - ⌊q⌋ < 1/2) : rhe q = ⌊q⌋ := by
  unfold rhe
  rw [if_pos h]

theorem rhe_eq_floor_add_one {q : ℚ} (h : 1/2 < q - ⌊q⌋) : rhe q = ⌊q⌋ + 1 := by
  unfold rhe
  rw [if_neg (by linarith), if_pos h]

theorem rhe_mono {a b : ℚ} (h : a ≤ b) : rhe a ≤ rhe b := by
  rcases lt_or_eq_of_le (Int.floor_le_floor h) with hlt | heq
  · exact le_trans (rhe_le_floor_add_one a)
      (le_trans (by omega) (floor_le_rhe b))
  · have hcast : ((⌊a⌋ : ℚ)) = (⌊b⌋ : ℚ) := by exact_mod_cast heq
    have hr : a - (⌊a⌋ : ℚ) ≤ b - (⌊b⌋ : ℚ) := by
      rw [← hcast]; linarith
    rcases lt_trichotomy (b - (⌊b⌋ : ℚ)) (1/2) with h1 | h1 | h1
    · rw [rhe_eq_floor (lt_of_le_of_lt hr h1), rhe_eq_floor h1]
      omega
    · rcases lt_or_eq_of_le (le_of_le_of_eq hr h1) with h2 | h2
      · rw [rhe_eq_floor h2]
        exact le_trans (by omega) (floor_le_rhe b)
      · have hab : a = b := by
          have ha : a = (⌊a⌋ : ℚ) + 1/2 := by linarith
          have hb : b = (⌊b⌋ : ℚ) + 1/2 := by linarith
          rw [ha, hb, hcast]
        rw [hab]
    · rw [rhe_eq_floor_add_one h1]
      exact le_trans (rhe_le_floor_add_one a) (by omega)

theorem rhe_intCast (n : ℤ) : rhe (n : ℚ) = n := by
  have h : ((n : ℚ)) - (⌊(n : ℚ)⌋ : ℚ) < 1/2 := by
    rw [Int.floor_intCast]; norm_num
  rw [rhe_eq_floor h, Int.floor_intCast]

theorem pyRound_mono (n : ℕ) {a b : ℚ} (h : a ≤ b) :
    pyRound n a ≤ pyRound n b := by
  unfold pyRound
  have h10 : (0 : ℚ) < 10 ^ n := by positivity
  have hm : a * 10 ^ n ≤ b * 10 ^ n := by
    exact mul_le_mul_of_nonneg_right h (le_of_lt h10)
  have := rhe_mono hm
  exact div_le_div_of_nonneg_right (by exact_mod_cast this) (le_of_lt h10)

theorem pyRound_intCast (n : ℕ) (m : ℤ) : pyRound n (m : ℚ) = m := by
  unfold pyRound
  have h : ((m : ℚ)) * 10 ^ n = ((m * 10 ^ n : ℤ) : ℚ) := by push_cast; ring
  rw [h, rhe_intCast]
  push_cast
  field_simp

theorem pyRound_nonneg (n : ℕ) {q : ℚ} (h : 0 ≤ q) : 0 ≤ pyRound n q := by
  have h0 : pyRound n ((0 : ℤ) : ℚ) = ((0 : ℤ) : ℚ) := pyRound_intCast n 0
  have := pyRound_mono n (by exact_mod_cast h : ((0 : ℤ) : ℚ) ≤ q)
  rw [h0] at this
  exact_mod_cast this

theorem pyRound_le_one (n : ℕ) {q : ℚ} (h : q ≤ 1) : pyRound n q ≤ 1 := by
  have h1 : pyRound n ((1 : ℤ) : ℚ) = ((1 : ℤ) : ℚ) := pyRound_intCast n 1
  have := pyRound_mono n (by exact_mod_cast h : q ≤ ((1 : ℤ) : ℚ))
  rw [h1] at this
  exact_mod_cast this

/-! ## Helper lemmas: period length bounds -/

theorem periodLengthFor_ge (period : ℤ) (t : String) :
    (300 : ℚ) ≤ periodLengthFor period t := by
  unfold periodLengthFor
  split_ifs <;> norm_num

theorem periodLengthFor_le (period : ℤ) (t : String) :
    periodLengthFor period t ≤ 720 := by
  unfold periodLengthFor
  split_ifs <;> norm_num

/-! ## Evaluation lemmas for concrete clock strings

`Rat` arithmetic does not reduce in the kernel, so concrete values of
the normalizer are computed by exposing the parsed clock via `rfl` (the
string layer is structural) and finishing the arithmetic with
`norm_num`. -/

theorem clockMinSec_eq {clock : String} {m : ℤ} {s : ℚ}
    (h : parseClock clock = some (m, s)) : clockMinSec clock = (m, s) := by
  unfold clockMinSec
  rw [h]
  rfl

theorem clockSecondsUsed_eq {clock : String} {m : ℤ} {s : ℚ}
    (h : parseClock clock = some (m, s)) :
    clockSecondsUsed clock = m * 60 + s := by
  unfold clockSecondsUsed
  rw [clockMinSec_eq h]

theorem calculateElapsedSeconds_eq {clock : String} {m : ℤ} {s : ℚ}
    (h : parseClock clock = some (m, s)) (period : ℤ) (t : String) :
    calculateElapsedSeconds clock period t =
      pyRound 2 (periodLengthFor period t - (m * 60 + s)
        + (max 0 (period - 1) : ℤ) * (12 * 60)) := by
  unfold calculateElapsedSeconds elapsedSecondsExact
  rw [clockSecondsUsed_eq h]

/-! ## C2: non-negativity of the elapsed-time normalizer -/

/-- C2 counterexample: `_calculate_elapsed_seconds("12:00", 1,
"OVERTIME")` is `-420.0`, a negative result, so the claim that the
normalizer returns a value `≥ 0` for every clock string, every integer
period `≥ 1` and every period type fails: an `OVERTIME` period uses the
5-minute period length while a `12:00` clock still carries 720 countdown
seconds. -/
theorem c2_elapsed_nonneg_counterexample :
    calculateElapsedSeconds "12:00" 1 "OVERTIME" = -420 ∧
    calculateElapsedSeconds "12:00" 1 "OVERTIME" < 0 := by
  have h : calculateElapsedSeconds "12:00" 1 "OVERTIME" = -420 := by
    rw [calculateElapsedSeconds_eq
      (show parseClock "12:00" = some (12, 1 * ((0 : ℕ) : ℚ)) from rfl)
      1 "OVERTIME"]
    rw [show periodLengthFor 1 "OVERTIME" = 5 * 60 from rfl]
    rw [show (5 * 60 : ℚ) - ((12 : ℤ) * 60 + 1 * ((0 : ℕ) : ℚ))
        + ((max 0 ((1 : ℤ) - 1) : ℤ) : ℚ) * (12 * 60) = ((-420 : ℤ) : ℚ)
      from by norm_num]
    rw [pyRound_intCast]
    norm_num
  exact ⟨h, by rw [h]; norm_num⟩

/-- C2 (amended): for every period `≥ 1` and every period type, the
elapsed-time normalizer returns a value `≥ 0` whenever the countdown
value it reads off the clock string (including the `12:00` fallback for
unparsable clocks) does not exceed the applicable period length. -/
theorem c2_elapsed_nonneg (clock : String) (period : ℤ)
    (period_type : String) (hp : 1 ≤ period)
    (hclock : clockSecondsUsed clock ≤ periodLengthFor period period_type) :
    0 ≤ calculateElapsedSeconds clock period period_type := by
  unfold calculateElapsedSeconds
  apply pyRound_nonneg
  unfold elapsedSecondsExact
  have hmax : (0 : ℤ) ≤ max 0 (period - 1) := le_max_left 0 (period - 1)
  have hmax' : (0 : ℚ) ≤ ((max 0 (period - 1) : ℤ) : ℚ) := by
    exact_mod_cast hmax
  linarith

theorem c2_elapsed_nonneg_witness :
    ((1 : ℤ) ≤ 1 ∧
      clockSecondsUsed "10:30" ≤ periodLengthFor 1 "REGULAR") ∧
    0 ≤ calculateElapsedSeconds "10:30" 1 "REGULAR" := by
  have hclock : clockSecondsUsed "10:30" ≤ periodLengthFor 1 "REGULAR" := by
    rw [clockSecondsUsed_eq
      (show parseClock "10:30" = some (10, 1 * ((30 : ℕ) : ℚ)) from rfl)]
    rw [show periodLengthFor 1 "REGULAR" = 12 * 60 from rfl]
    norm_num
  exact ⟨⟨by decide, hclock⟩,
    c2_elapsed_nonneg "10:30" 1 "REGULAR" (by decide) hclock⟩

/-! ## C9: monotonicity of the elapsed-time normalizer in the period -/

/-- C9: holding the clock string and the period type fixed, the value of
`_calculate_elapsed_seconds` is monotonically non-decreasing as the
period number increases (for periods `≥ 1`), including across the
regulation-to-overtime boundary where the period length drops from 12
to 5 minutes: the fixed 720-second per-period stride dominates the
420-second length drop. -/
theorem c9_elapsed_monotone (clock : String) (period_type : String)
    (p q : ℤ) (hp : 1 ≤ p) (hpq : p ≤ q) :
    calculateElapsedSeconds clock p period_type ≤
      calculateElapsedSeconds clock q period_type := by
  rcases eq_or_lt_of_le hpq with rfl | hlt
  · exact le_refl _
  · unfold calculateElapsedSeconds
    apply pyRound_mono
    unfold elapsedSecondsExact
    have hmp : max 0 (p - 1) = p - 1 := by omega
    have hmq : max 0 (q - 1) = q - 1 := by omega
    rw [hmp, hmq]
    have hLp := periodLengthFor_le p period_type
    have hLq := periodLengthFor_ge q period_type
    have hq1 : ((p : ℚ)) + 1 ≤ (q : ℚ) := by exact_mod_cast hlt
    push_cast
    linarith

theorem c9_elapsed_monotone_witness :
    ((1 : ℤ) ≤ 4 ∧ (4 : ℤ) ≤ 5) ∧
    calculateElapsedSeconds "09:15" 4 "REGULAR" ≤
      calculateElapsedSeconds "09:15" 5 "REGULAR" :=
  ⟨⟨by decide, by decide⟩,
   c9_elapsed_monotone "09:15" "REGULAR" 4 5 (by decide) (by decide)⟩

/-! ## C1: team-code mapper round trip -/

/-- C1 counterexample: the official code `NOP` maps to the HTML-scheme
code `NOP`, but the reverse map sends `NOP` back to `NOH`, because the
dict comprehension `{v: k for k, v in TEAM_TO_BREF.items()}` lets the
later-listed alias `NOH` overwrite the entry for the value `NOP`.  The
round trip therefore does not return the original code for every key of
the table. -/
theorem c1_round_trip_counterexample :
    (roundTripTeamCode "NOP" == "NOP") = false ∧
    roundTripTeamCode "NOP" = "NOH" := by
  constructor <;> decide

/-- C1 (amended): the round trip
`fromAlternateScheme (toAlternateScheme code) = code` holds for every
code in the known franchise set except the four alias codes `BKN`,
`CHA`, `NOP`, `PHX`, each of which shares its HTML-scheme code with a
later-listed alias in `TEAM_TO_BREF` and is returned as that alias
(`BRK`, `CHO`, `NOH`, `PHO` respectively). -/
theorem c1_round_trip :
    ∀ code ∈ TEAM_TO_BREF.map Prod.fst, code ∉ shadowedTeamCodes →
      roundTripTeamCode code = code := by
  decide

theorem c1_round_trip_witness :
    ("BOS" ∈ TEAM_TO_BREF.map Prod.fst ∧ "BOS" ∉ shadowedTeamCodes) ∧
    roundTripTeamCode "BOS" = "BOS" :=
  ⟨⟨by decide, by decide⟩, c1_round_trip "BOS" (by decide) (by decide)⟩

/-! ## C3: no secondary schedule source exists -/

/-- C3 counterexample: with a primary source that answers the schedule
request with an empty game list, the resolver performs exactly one
request — the primary official schedule URL — and returns the empty
schedule; no secondary (community JSON) source is fetched before the
season is given up.  `_fetch_schedule` contains no fallback fetch. -/
theorem c3_secondary_fetch_counterexample :
    fetchSchedule (fun _ => Except.ok { leagueStandard := some [] }) 2023
      = (Except.ok [], [SCHEDULE_URL_for 2023]) ∧
    SCHEDULE_URL_for 2023
      = "https://data.nba.com/data/10s/prod/v1/2023/schedule.json" := by
  constructor <;> rfl

/-- C3 (amended): for every season and every behaviour of the network,
the schedule resolver issues exactly one request, to the primary
official schedule URL; an empty primary result yields an empty season
and a transport error makes `scrape_season_data` skip the season — in
neither case is any secondary source consulted. -/
theorem c3_schedule_single_source
    (oracle : String → Except Unit SchedulePayload) (season_start : ℤ) :
    (fetchSchedule oracle season_start).2 = [SCHEDULE_URL_for season_start] ∧
    scrapeSeasonSchedule (fun _ => Except.error ()) season_start = none := by
  constructor
  · cases h : oracle (SCHEDULE_URL_for season_start) <;>
      simp [fetchSchedule, h]
  · rfl

/-! ## C4: the rate limiter does not cover every outbound fetch -/

/-- C4 counterexample: the HTML play-by-play fetch of
`_fetch_first_event_from_bref` calls `self.session.get(url)` directly —
its network trace is a bare HTTP GET with no rate-limiter wait — so the
claim that every outbound fetch passes through the shared rate limiter
fails for the Basketball Reference pages (and likewise for the
robots.txt fetch and the HTML scoreboard fetch). -/
theorem c4_rate_limit_counterexample :
    brefPbpFetchEvents (BREF_PBP_URL_for "202310240DEN")
      = [NetEvent.httpGet
          "https://www.basketball-reference.com/boxscores/pbp/202310240DEN.html"] ∧
    (brefPbpFetchEvents (BREF_PBP_URL_for "202310240DEN")).contains
      NetEvent.rateLimitWait = false := by
  constructor <;> rfl

/-- C4 (amended): only requests issued through `_fetch_json` (the
official JSON endpoints: schedule, play-by-play, scoreboard) pass
through the shared rate limiter, which blocks for
`max(0, min_interval - time_since_last_call)` before the request; the
robots.txt fetch, the Basketball Reference play-by-play fetch and the
Basketball Reference box-score fetch bypass the limiter entirely. -/
theorem c4_rate_limit_partial_coverage (url : String)
    (now last interval : ℚ) :
    fetchJsonEvents url = [NetEvent.rateLimitWait, NetEvent.httpGet url] ∧
    respectRateLimitSleep now last interval
      = max 0 (interval - (now - last)) ∧
    checkRobotsEvents.contains NetEvent.rateLimitWait = false ∧
    (brefPbpFetchEvents url).contains NetEvent.rateLimitWait = false ∧
    brefBoxScoresFetchEvents.contains NetEvent.rateLimitWait = false := by
  refine ⟨rfl, ?_, rfl, rfl, rfl⟩
  unfold respectRateLimitSleep
  split_ifs with h
  · rw [max_eq_right (by linarith)]
  · rw [max_eq_left (by linarith)]


/-! ## C6: upsert semantics of the idempotent store -/

theorem upsert_filter_key (store : List GameRecord) (r : GameRecord)
    (hwf : storeWF store) :
    (upsertGameRecord store r).filter
      (fun x => x.game_id = r.game_id) = [r] := by
  induction store with
  | nil => simp [upsertGameRecord]
  | cons x xs ih =>
    rw [storeWF, List.map_cons, List.nodup_cons] at hwf
    have hwf' : storeWF xs := hwf.2
    by_cases hx : x.game_id = r.game_id
    · have hnotin : ∀ y ∈ xs, ¬(y.game_id = r.game_id) := by
        intro y hy heq
        exact hwf.1 (by rw [hx, ← heq]; exact List.mem_map_of_mem _ hy)
      have hany : (x :: xs).any (fun y => decide (y.game_id = r.game_id))
          = true := by simp [hx]
      have hmap : xs.map (fun y => if y.game_id = r.game_id then r else y)
          = xs := by
        refine (List.map_congr_left ?_).trans (List.map_id xs)
        intro y hy
        simp [hnotin y hy]
      unfold upsertGameRecord
      rw [if_pos hany, List.map_cons, if_pos hx, hmap]
      have hnil : xs.filter (fun x => decide (x.game_id = r.game_id)) = [] :=
        List.filter_eq_nil_iff.mpr (by intro y hy; simp [hnotin y hy])
      simp [List.filter_cons, hnil]
    · have hstep : upsertGameRecord (x :: xs) r
          = x :: upsertGameRecord xs r := by
        unfold upsertGameRecord
        by_cases hany : xs.any (fun y => decide (y.game_id = r.game_id)) = true
        · simp [hany, hx]
        · simp [hany, hx]
      rw [hstep, List.filter_cons]
      rw [if_neg (by simp [hx])]
      exact ih hwf'

theorem upsert_wf (store : List GameRecord) (r : GameRecord)
    (hwf : storeWF store) : storeWF (upsertGameRecord store r) := by
  unfold upsertGameRecord
  by_cases hany : store.any (fun x => decide (x.game_id = r.game_id)) = true
  · rw [if_pos hany]
    unfold storeWF at hwf ⊢
    have hkeys : (store.map (fun y => if y.game_id = r.game_id then r else y)).map
        (fun x => x.game_id) = store.map (fun x => x.game_id) := by
      rw [List.map_map]
      refine List.map_congr_left ?_
      intro y _
      by_cases h : y.game_id = r.game_id <;> simp [h]
    rw [hkeys]
    exact hwf
  · rw [if_neg hany]
    unfold storeWF at hwf ⊢
    rw [List.map_append]
    rw [List.nodup_append]
    refine ⟨hwf, List.nodup_singleton _, ?_⟩
    intro a ha hb
    simp at hb
    rw [List.mem_map] at ha
    obtain ⟨y, hy, hkey⟩ := ha
    rw [List.any_eq_true] at hany
    exact hany ⟨y, hy, by simp [hkey, hb]⟩

theorem upsert_processed (store : List GameRecord) (r : GameRecord)
    (hwf : storeWF store) :
    gameAlreadyProcessed (upsertGameRecord store r) r.game_id = true := by
  have h := upsert_filter_key store r hwf
  have hr : r ∈ upsertGameRecord store r := by
    have hmem : r ∈ (upsertGameRecord store r).filter
        (fun x => x.game_id = r.game_id) := by
      rw [h]; exact List.mem_singleton_self r
    exact List.mem_of_mem_filter hmem
  unfold gameAlreadyProcessed
  rw [List.any_eq_true]
  exact ⟨r, hr, by simp⟩

/-- C6: upserting a record leaves exactly one row with its key, carrying
exactly its field values; upserting a second record with the same key
overwrites every field and still leaves exactly one row; and the
existence check is true immediately after the upsert. -/
theorem c6_upsert_exactly_one_row (store : List GameRecord)
    (r r' : GameRecord) (hwf : storeWF store)
    (hid : r'.game_id = r.game_id) :
    (upsertGameRecord store r).filter
      (fun x => x.game_id = r.game_id) = [r] ∧
    gameAlreadyProcessed (upsertGameRecord store r) r.game_id = true ∧
    storeWF (upsertGameRecord store r) ∧
    (upsertGameRecord (upsertGameRecord store r) r').filter
      (fun x => x.game_id = r'.game_id) = [r'] :=
  ⟨upsert_filter_key store r hwf, upsert_processed store r hwf,
   upsert_wf store r hwf,
   upsert_filter_key _ r' (upsert_wf store r hwf)⟩

theorem c6_upsert_exactly_one_row_witness :
    (storeWF [] ∧ demoRecordB.game_id = demoRecordA.game_id) ∧
    ((upsertGameRecord [] demoRecordA).filter
        (fun x => x.game_id = demoRecordA.game_id) = [demoRecordA] ∧
      gameAlreadyProcessed (upsertGameRecord [] demoRecordA)
        demoRecordA.game_id = true ∧
      storeWF (upsertGameRecord [] demoRecordA) ∧
      (upsertGameRecord (upsertGameRecord [] demoRecordA) demoRecordB).filter
        (fun x => x.game_id = demoRecordB.game_id) = [demoRecordB]) :=
  ⟨⟨by simp [storeWF], rfl⟩,
   c6_upsert_exactly_one_row [] demoRecordA demoRecordB
     (by simp [storeWF]) rfl⟩

/-! ## C7 and C8: source mappers, fallback priority -/

theorem pyTruthyO_getD {o : Option String} (h : pyTruthyO o = true) :
    o.getD "" ≠ "" := by
  cases o with
  | none => simp [pyTruthyO] at h
  | some s => simpa [pyTruthyO] using h

theorem extract_team_ne_empty : ∀ (acts : List PbpAction) (ev : ScoringEvent),
    extractFirstScoringEvent acts = some ev → ev.team ≠ "" := by
  intro acts
  induction acts with
  | nil => intro ev h; simp [extractFirstScoringEvent] at h
  | cons a rest ih =>
    intro ev h
    rw [extractFirstScoringEvent] at h
    by_cases h1 : a.scoreValue ≤ 0
    · rw [if_pos h1] at h; exact ih ev h
    · rw [if_neg h1] at h
      dsimp only at h
      by_cases h2 : (!pyTruthyO a.teamTricode
          || !pyTruthyO (pyOrS a.playerName a.playerNameI)) = true
      · rw [if_pos h2] at h; exact ih ev h
      · rw [if_neg h2] at h
        injection h with h
        subst h
        have hA : pyTruthyO a.teamTricode = true := by
          cases hA : pyTruthyO a.teamTricode
          · exact absurd (by rw [hA]; rfl) h2
          · rfl
        exact pyTruthyO_getD hA

theorem bref_team_ne_empty : ∀ (rows : List BrefRow) (ev : ScoringEvent),
    fetchFirstEventFromBref rows = some ev → ev.team ≠ "" := by
  intro rows
  induction rows with
  | nil => intro ev h; simp [fetchFirstEventFromBref] at h
  | cons row rest ih =>
    intro ev h
    rw [fetchFirstEventFromBref] at h
    cases hscore : row.score with
    | none => rw [hscore] at h; exact ih ev h
    | some score_text =>
      rw [hscore] at h
      dsimp only at h
      by_cases h1 : (score_text = "" || score_text = "0-0") = true
      · rw [if_pos h1] at h; exact ih ev h
      · rw [if_neg h1] at h
        by_cases h2 : (!pyTruthyO (extractBrefTeamFromRow row)
            || extractBrefDescription row = "") = true
        · rw [if_pos h2] at h; exact ih ev h
        · rw [if_neg h2] at h
          injection h with h
          subst h
          have hA : pyTruthyO (extractBrefTeamFromRow row) = true := by
            cases hA : pyTruthyO (extractBrefTeamFromRow row)
            · exact absurd (by rw [hA]; rfl) h2
            · rfl
          exact pyTruthyO_getD hA

theorem core_team_ne_empty (srcs : Sources) (ev : ScoringEvent)
    (tags : List SourceTag)
    (h : processGameCore srcs = (some ev, tags)) : ev.team ≠ "" := by
  unfold processGameCore at h
  cases h1 : srcs.pbpActions.bind extractFirstScoringEvent with
  | some e =>
    rw [h1] at h
    injection h with h2 h3
    injection h2 with h2
    subst h2
    rw [Option.bind_eq_some] at h1
    obtain ⟨acts, _, hex⟩ := h1
    exact extract_team_ne_empty acts _ hex
  | none =>
    rw [h1] at h
    cases h2 : srcs.apiActions.bind extractFirstScoringEvent with
    | some e =>
      rw [h2] at h
      injection h with h3 h4
      injection h3 with h3
      subst h3
      rw [Option.bind_eq_some] at h2
      obtain ⟨acts, _, hex⟩ := h2
      exact extract_team_ne_empty acts _ hex
    | none =>
      rw [h2] at h
      injection h with h3 h4
      rw [Option.bind_eq_some] at h3
      obtain ⟨rows, _, hex⟩ := h3
      exact bref_team_ne_empty rows ev hex

/-- C7: whenever `_process_game` writes a record, the record's
`first_scoring_team` is a non-null, non-empty team code: every source
mapper only returns events whose team survived a truthiness check, and
games without a resolved event are skipped without any write. -/
theorem c7_first_scoring_team_present (srcs : Sources) (game : ScheduleGame)
    (season_label : String) (store : List GameRecord)
    (todayIso nowIso : String) (rec : GameRecord) (tags : List SourceTag)
    (h : processGame srcs game season_label store todayIso nowIso
      = (some rec, tags)) :
    ∃ t, rec.first_scoring_team = some t ∧ t ≠ "" := by
  unfold processGame at h
  cases hgid : game.gameId with
  | none => rw [hgid] at h; simp at h
  | some gid =>
    rw [hgid] at h
    dsimp only at h
    by_cases hempty : gid = ""
    · rw [if_pos hempty] at h; simp at h
    · rw [if_neg hempty] at h
      by_cases hproc : gameAlreadyProcessed store gid = true
      · rw [if_pos hproc] at h; simp at h
      · rw [if_neg hproc] at h
        cases hcore : processGameCore srcs with
        | mk evOpt tags2 =>
          rw [hcore] at h
          cases evOpt with
          | none => simp at h
          | some ev =>
            injection h with h1 h2
            injection h1 with h1
            refine ⟨ev.team, ?_, core_team_ne_empty srcs ev tags2 hcore⟩
            rw [← h1]
            rfl

theorem c7_first_scoring_team_present_witness :
    (processGame demoSources demoGame "2023-24" [] "2023-10-24" "now"
      = (some (buildGameRecord "0022300001" demoGame "2023-24"
          demoFirstEvent (PBP_URL_for "0022300001") "2023-10-24" "now"),
        [SourceTag.officialPbp])) ∧
    ∃ t, (buildGameRecord "0022300001" demoGame "2023-24" demoFirstEvent
        (PBP_URL_for "0022300001") "2023-10-24" "now").first_scoring_team
      = some t ∧ t ≠ "" :=
  ⟨rfl, c7_first_scoring_team_present demoSources demoGame "2023-24" []
    "2023-10-24" "now" _ _ rfl⟩

/-- C8: `_process_game` tries its scoring-event sources in strict
priority order — (a) the official play-by-play log, (b) the live
event-feed replay, (c) the Basketball Reference HTML page — and stops
at the first that yields an event: if (a) yields an event, only (a) is
invoked and its event is the result; (b) is consulted only when (a)
yields none, and (c) only when both (a) and (b) yield none. -/
theorem c8_source_priority (srcs : Sources) :
    (∀ ev, srcs.pbpActions.bind extractFirstScoringEvent = some ev →
      processGameCore srcs = (some ev, [SourceTag.officialPbp])) ∧
    (srcs.pbpActions.bind extractFirstScoringEvent = none →
      ∀ ev, srcs.apiActions.bind extractFirstScoringEvent = some ev →
        processGameCore srcs
          = (some ev, [SourceTag.officialPbp, SourceTag.liveApi])) ∧
    (srcs.pbpActions.bind extractFirstScoringEvent = none →
      srcs.apiActions.bind extractFirstScoringEvent = none →
        processGameCore srcs
          = (srcs.brefRows.bind fetchFirstEventFromBref,
             [SourceTag.officialPbp, SourceTag.liveApi,
              SourceTag.brefHtml])) := by
  refine ⟨?_, ?_, ?_⟩
  · intro ev h
    unfold processGameCore
    rw [h]
  · intro h1 ev h2
    unfold processGameCore
    rw [h1, h2]
  · intro h1 h2
    unfold processGameCore
    rw [h1, h2]

theorem c8_source_priority_witness :
    (demoSources.pbpActions.bind extractFirstScoringEvent
      = some demoFirstEvent) ∧
    processGameCore demoSources
      = (some demoFirstEvent, [SourceTag.officialPbp]) :=
  ⟨rfl, (c8_source_priority demoSources).1 demoFirstEvent rfl⟩

/-! ## C10: HTML description fallback for the player name -/

/-- C10: `_guess_player_from_description` returns `None` exactly on the
empty description; for every non-empty description containing none of
the action markers (`" makes"`, `" misses"`, `" turnover"`,
`" assists"`, `" enters"`), it returns the entire description text, so
an HTML-derived event's player name may be a full play sentence. -/
theorem c10_player_description_fallback (d : String) :
    (guessPlayerFromDescription d = none ↔ d = "") ∧
    (d ≠ "" → (∀ m ∈ PLAYER_MARKERS, pyIn m d = false) →
      guessPlayerFromDescription d = some d) := by
  constructor
  · constructor
    · intro h
      by_contra hne
      rw [guessPlayerFromDescription, if_neg hne] at h
      cases hfind : PLAYER_MARKERS.find? (fun marker => pyIn marker d) with
      | none => rw [hfind] at h; simp at h
      | some m => rw [hfind] at h; simp at h
    · intro h
      rw [h]
      rfl
  · intro hne hmark
    rw [guessPlayerFromDescription, if_neg hne]
    rw [List.find?_eq_none.mpr (by intro m hm; simp [hmark m hm])]

theorem c10_player_description_fallback_witness :
    (("Jump ball won by DEN" : String) ≠ "" ∧
      (∀ m ∈ PLAYER_MARKERS, pyIn m "Jump ball won by DEN" = false)) ∧
    guessPlayerFromDescription "Jump ball won by DEN"
      = some "Jump ball won by DEN" :=
  ⟨⟨by decide, by decide⟩,
   (c10_player_description_fallback "Jump ball won by DEN").2
     (by decide) (by decide)⟩

/-! ## C5: first-basket probability -/

theorem countP_or_le {α : Type} (l : List α) (p q : α → Bool) :
    l.countP (fun a => p a || q a) ≤ l.countP p + l.countP q := by
  induction l with
  | nil => simp
  | cons a l ih =>
    rw [List.countP_cons, List.countP_cons, List.countP_cons]
    cases hp : p a <;> cases hq : q a <;> simp [hp, hq] <;> omega

theorem summaryForKey_some {rows : List GameRecord} {season_label : String}
    {k : Option String × Option String × Option String} {s : PlayerSummary}
    (h : summaryForKey rows season_label k = some s) :
    ∃ t, k.2.2 = some t ∧
      s.games_played = teamGamesPlayed rows season_label t ∧
      s.games_played ≠ 0 ∧
      s.first_baskets = (groupRowsOf rows season_label k).length ∧
      s.first_basket_probability
        = pyRound 4 ((s.first_baskets : ℚ) / (s.games_played : ℚ)) := by
  unfold summaryForKey at h
  cases hteam : k.2.2 with
  | none => rw [hteam] at h; simp at h
  | some t =>
    rw [hteam] at h
    dsimp only at h
    by_cases hz : teamGamesPlayed rows season_label t = 0
    · rw [if_pos hz] at h; simp at h
    · rw [if_neg hz] at h
      injection h with h
      subst h
      exact ⟨t, rfl, rfl, hz, rfl, rfl⟩

/-- The counting argument: when every stored row of the season names one
of its own two teams as `first_scoring_team`, a group's size is bounded
by its team's `games_played`. -/
theorem group_le_teamGames {rows : List GameRecord} {season_label : String}
    {k : Option String × Option String × Option String} {t : String}
    (hteam : k.2.2 = some t)
    (hcons : ∀ r ∈ rows, r.season = season_label →
      ∀ u, r.first_scoring_team = some u →
        r.home_team = some u ∨ r.away_team = some u) :
    (groupRowsOf rows season_label k).length
      ≤ teamGamesPlayed rows season_label t := by
  unfold groupRowsOf teamGamesPlayed
  rw [← List.countP_eq_length_filter]
  have h1 : (scoredRowsOf rows season_label).countP (fun r =>
      decide (r.first_scoring_player = k.1 ∧
        r.first_scoring_player_id = k.2.1 ∧ r.first_scoring_team = k.2.2))
      ≤ (scoredRowsOf rows season_label).countP
        (fun r => r.first_scoring_team = some t) := by
    apply List.countP_mono_left
    intro r _ hr
    simp only [decide_eq_true_eq] at hr ⊢
    rw [← hteam]
    exact hr.2.2
  have h2 : (scoredRowsOf rows season_label).countP
      (fun r => r.first_scoring_team = some t)
      ≤ (seasonRowsOf rows season_label).countP
        (fun r => r.first_scoring_team = some t) := by
    unfold scoredRowsOf
    rw [List.countP_filter]
    apply List.countP_mono_left
    intro r _ hr
    simp only [Bool.and_eq_true] at hr
    exact hr.1
  have h3 : (seasonRowsOf rows season_label).countP
      (fun r => r.first_scoring_team = some t)
      ≤ (seasonRowsOf rows season_label).countP
        (fun r => decide (r.home_team = some t) ||
          decide (r.away_team = some t)) := by
    apply List.countP_mono_left
    intro r hrmem hr
    simp only [decide_eq_true_eq] at hr
    unfold seasonRowsOf at hrmem
    rw [List.mem_filter] at hrmem
    have hseason : r.season = season_label := by
      simpa using hrmem.2
    rcases hcons r hrmem.1 hseason t hr with hht | hat
    · simp [hht]
    · simp [hat]
  have h4 := countP_or_le (seasonRowsOf rows season_label)
    (fun r => decide (r.home_team = some t))
    (fun r => decide (r.away_team = some t))
  omega

/-- C5 counterexample: `_build_player_summary` performs no clamping, so
a store in which `first_scoring_team` does not match either team of its
game (a shape the summary query cannot rule out) yields
`first_basket_probability = 2.0`, outside `[0, 1]`: player `P` is
credited with 2 first baskets for team `AAA` while `AAA` has
`games_played = 1`. -/
theorem c5_probability_counterexample :
    (buildPlayerSummary inconsistentRows "2023-24").map
      (fun s => s.first_basket_probability) = [2] ∧ (1 : ℚ) < 2 := by
  constructor
  · rw [show (buildPlayerSummary inconsistentRows "2023-24").map
        (fun s => s.first_basket_probability)
        = [pyRound 4 (((2 : ℕ) : ℚ) / ((1 : ℕ) : ℚ))] from rfl]
    rw [show (((2 : ℕ) : ℚ) / ((1 : ℕ) : ℚ)) = ((2 : ℤ) : ℚ) from by
      norm_num]
    rw [pyRound_intCast]
    norm_num
  · norm_num

/-- C5 (amended): every exported `PlayerSummary` has
`first_basket_probability = round(first_baskets / games_played, 4)` with
`games_played > 0` (zero-game teams are skipped, so no division by zero
occurs); and provided every stored row of the season names one of its
own two teams as `first_scoring_team` — which the summary query itself
does not enforce — the probability lies in `[0, 1]`. -/
theorem c5_probability_bounds (rows : List GameRecord)
    (season_label : String)
    (hcons : ∀ r ∈ rows, r.season = season_label →
      ∀ u, r.first_scoring_team = some u →
        r.home_team = some u ∨ r.away_team = some u) :
    ∀ s ∈ buildPlayerSummary rows season_label,
      0 < s.games_played ∧
      s.first_basket_probability
        = pyRound 4 ((s.first_baskets : ℚ) / (s.games_played : ℚ)) ∧
      0 ≤ s.first_basket_probability ∧ s.first_basket_probability ≤ 1 := by
  intro s hs
  unfold buildPlayerSummary at hs
  rw [List.mem_filterMap] at hs
  obtain ⟨k, _, hsk⟩ := hs
  obtain ⟨t, hteam, hgp, hgz, hfb, hprob⟩ := summaryForKey_some hsk
  have hle : s.first_baskets ≤ s.games_played := by
    rw [hfb, hgp]
    exact group_le_teamGames hteam hcons
  have hpos : 0 < s.games_played := Nat.pos_of_ne_zero hgz
  refine ⟨hpos, hprob, ?_, ?_⟩
  · rw [hprob]
    apply pyRound_nonneg
    positivity
  · rw [hprob]
    apply pyRound_le_one
    rw [div_le_one (by exact_mod_cast hpos)]
    exact_mod_cast hle

theorem c5_probability_bounds_witness :
    (∀ r ∈ twoGameRows, r.season = "2023-24" →
      ∀ u, r.first_scoring_team = some u →
        r.home_team = some u ∨ r.away_team = some u) ∧
    (∀ s ∈ buildPlayerSummary twoGameRows "2023-24",
      0 < s.games_played ∧
      s.first_basket_probability
        = pyRound 4 ((s.first_baskets : ℚ) / (s.games_played : ℚ)) ∧
      0 ≤ s.first_basket_probability ∧ s.first_basket_probability ≤ 1) ∧
    (buildPlayerSummary twoGameRows "2023-24").map
      (fun s => (s.games_played, s.first_baskets)) = [(2, 1), (2, 1)] ∧
    (buildPlayerSummary twoGameRows "2023-24").map
      (fun s => s.first_basket_probability) = [1/2, 1/2] := by
  have hcons : ∀ r ∈ twoGameRows, r.season = "2023-24" →
      ∀ u, r.first_scoring_team = some u →
        r.home_team = some u ∨ r.away_team = some u := by
    intro r hr hseason u hu
    rcases List.mem_pair.mp hr with h | h <;> subst h
    · left
      injection hu with hu
      rw [← hu]
    · left
      injection hu with hu
      rw [← hu]
  refine ⟨hcons, c5_probability_bounds twoGameRows "2023-24" hcons, rfl, ?_⟩
  rw [show (buildPlayerSummary twoGameRows "2023-24").map
      (fun s => s.first_basket_probability)
      = [pyRound 4 (((1 : ℕ) : ℚ) / ((2 : ℕ) : ℚ)),
         pyRound 4 (((1 : ℕ) : ℚ) / ((2 : ℕ) : ℚ))] from rfl]
  have h : pyRound 4 (((1 : ℕ) : ℚ) / ((2 : ℕ) : ℚ)) = 1/2 := by
    unfold pyRound
    rw [show (((1 : ℕ) : ℚ) / ((2 : ℕ) : ℚ)) * 10 ^ 4 = ((5000 : ℤ) : ℚ)
      from by norm_num]
    rw [rhe_intCast]
    norm_num
  rw [h]
